import Mathlib

/-!
Shallow embedding of the P2000-API repository (`src/p2000/rtlsdr.py`):
the `Line` record parser, the `Connection` subprocess-pipeline lifecycle,
and the `AbstractReader` attach/detach/read-loop state machine, together
with theorems settling the specification claims about them.

Python strings are modelled as Lean `String`; raw byte lines as `List Char`
(the configured text encoding is modelled as the bijection
`String.data` / `String.mk`, since the repository treats the encoder and
decoder as exact inverses supplied by the runtime).  Fallible operations
(out-of-range index access, subprocess spawn failure, stream faults,
user-callback exceptions) return `Except PyError` values; OS-level side
effects (the `killall` teardown command) are collected in an effect list.
-/

namespace P2000

/-- The whitespace class used by Python's `str.split()` / `str.rstrip()`
(space, tab, newline, carriage return, vertical tab, form feed). -/
def pyIsSpace (c : Char) : Bool :=
  c == ' ' || c == '\t' || c == '\n' || c == '\r' || c == '\x0b' || c == '\x0c'

/-- Helper for `pySplit`: walks the character list, accumulating the current
token (in reverse) in `acc`; whitespace runs separate tokens and empty
tokens are never produced, like Python's no-argument `str.split()`. -/
def splitAux : List Char → List Char → List String
  | [], acc => if acc.isEmpty then [] else [String.mk acc.reverse]
  | c :: cs, acc =>
    if pyIsSpace c then
      if acc.isEmpty then splitAux cs [] else String.mk acc.reverse :: splitAux cs []
    else
      splitAux cs (c :: acc)

/-- Python's `line.split()` (no separator argument): split on runs of
whitespace, discarding leading/trailing whitespace and empty tokens. -/
def pySplit (s : String) : List String :=
  splitAux s.data []

/-- Python list slicing `xs[start:stop]` for a non-negative `start` and an
`Int` `stop` (a negative `stop` counts from the end, clamped at 0). -/
def pySlice (xs : List String) (start : Nat) (stop : Int) : List String :=
  let stopN : Nat := if stop < 0 then xs.length - (-stop).toNat else stop.toNat
  (xs.take stopN).drop start

/-- Errors surfaced by the embedded code: `indexError` for an out-of-range
list access, `connectionError` for `attach` on an active connection
(`requests.ConnectionError` in the source), `spawnError` for a failed
`Popen`, `streamError` for a fault while reading the byte stream, and
`actError` for an exception thrown by the user-supplied `act` callback. -/
inductive PyError
  | indexError
  | connectionError
  | spawnError
  | streamError
  | actError (tag : Nat)
deriving Repr, DecidableEq

/-- Python `xs[i]` for a non-negative index: the element, or an
`IndexError` when `i` is out of range. -/
def pyGet (xs : List String) (i : Nat) : Except PyError String :=
  match xs[i]? with
  | some x => Except.ok x
  | none => Except.error PyError.indexError

/-- Python's `s.strip("[]")`: remove every leading and trailing character
drawn from the set `{'[', ']'}`. -/
def pyStripBrackets (s : String) : String :=
  String.mk (((s.data.dropWhile fun c => c == '[' || c == ']').reverse.dropWhile
    fun c => c == '[' || c == ']').reverse)

/-- Python's no-argument `s.rstrip()`: remove all trailing whitespace. -/
def pyRstrip (s : String) : String :=
  String.mk (s.data.reverse.dropWhile pyIsSpace).reverse

/-- The FLEX `Line` object of `p2000.rtlsdr`: the raw line and the three
extracted fields. -/
structure Line where
  line : String
  timestamp : String
  monitorcode : String
  message : String
deriving Repr, DecidableEq

/-- The keyword arguments accepted by `Line.__init__` (`timestamp`,
`monitorcode`, `message`); `none` means the keyword was not supplied. -/
structure LineKwargs where
  timestamp : Option String
  monitorcode : Option String
  message : Option String
deriving Repr, DecidableEq

/-- No keyword overrides supplied. -/
def noKwargs : LineKwargs := ⟨none, none, none⟩

/-- `Line.__init__`: split the line on whitespace; the timestamp default is
`" ".join(words[1:2])`, the monitorcode default is `words[5].strip("[]")`
and the message default is `" ".join(words[6:-1])`.  Python evaluates each
default expression eagerly, before `kwargs.get` consults the overrides, so
the `words[5]` access can raise an `IndexError` even when every keyword is
supplied. -/
def Line.init (line : String) (kwargs : LineKwargs) : Except PyError Line := do
  let words := pySplit line
  let tsDefault := String.intercalate " " (pySlice words 1 2)
  let mcTok ← pyGet words 5
  let mcDefault := pyStripBrackets mcTok
  let msgDefault := String.intercalate " " (pySlice words 6 (-1))
  pure { line := line
         timestamp := kwargs.timestamp.getD tsDefault
         monitorcode := kwargs.monitorcode.getD mcDefault
         message := kwargs.message.getD msgDefault }

/-- One item of the decode process's output stream: a raw byte line, or a
fault raised while reading.  Iterating the stream yields the lines in order
and raises at the first fault. -/
instance {ε α : Type} [DecidableEq ε] [DecidableEq α] : DecidableEq (Except ε α) :=
  fun a b =>
  match a, b with
  | Except.ok x, Except.ok y =>
    if h : x = y then isTrue (by rw [h]) else isFalse fun hh => h (Except.ok.inj hh)
  | Except.ok _, Except.error _ => isFalse fun hh => Except.noConfusion hh
  | Except.error _, Except.ok _ => isFalse fun hh => Except.noConfusion hh
  | Except.error x, Except.error y =>
    if h : x = y then isTrue (by rw [h]) else isFalse fun hh => h (Except.error.inj hh)

abbrev StreamItem : Type := Except PyError (List Char)

/-- OS-level side effects performed by the embedded code.  `killall` is the
`call(COMMAND_KILL)` teardown (a process-wide kill of the capture binary by
name); `spawn` records a successful `Popen` of the named command. -/
inductive Effect
  | killall
  | spawn (cmd : String)
deriving Repr, DecidableEq

/-- The `Connection` object: optional handles to the two child processes
(`rtl_fm` and `multimon-ng`) and the optional readable byte stream
(`multi_process.stdout`).  A handle is `some` exactly when the
corresponding `Popen` assignment has executed. -/
structure Connection where
  rtlfm_process : Option Unit
  multi_process : Option Unit
  stdout : Option (List StreamItem)
deriving Repr, DecidableEq

/-- `Connection.__init__`: all three handles start out as `None`. -/
def Connection.init : Connection := ⟨none, none, none⟩

/-- The environment a single `Connection.open` call runs in: whether each
of the two `Popen` calls succeeds, and the byte stream the decode process
will produce if spawned. -/
structure SpawnEnv where
  rtlfmOk : Bool
  multiOk : Bool
  stream : List StreamItem
deriving Repr, DecidableEq

/-- `Connection.kill`: runs `call(COMMAND_KILL)` — a process-wide
`killall -9 rtl_fm` — and touches none of the instance's handles. -/
def Connection.kill (c : Connection) : Connection × List Effect :=
  (c, [Effect.killall])

/-- `Connection.open`: optionally run `kill` first (the `kill` kwarg,
default `False`); spawn `rtl_fm`, then spawn `multimon-ng` fed from its
output, then expose the decode process's stdout.  A failed `Popen` raises,
leaving every assignment already made in place (Python has no rollback).
Returns the resulting object, the effects performed, and the exception if
one was raised. -/
def Connection.openRun (env : SpawnEnv) (killFlag : Bool) (c : Connection) :
    Connection × List Effect × Option PyError :=
  let killEffs := if killFlag then (Connection.kill c).2 else []
  if env.rtlfmOk then
    let c1 : Connection := { c with rtlfm_process := some () }
    if env.multiOk then
      let c2 : Connection :=
        { c1 with multi_process := some (), stdout := some env.stream }
      (c2, killEffs ++ [Effect.spawn "rtl_fm", Effect.spawn "multimon-ng"], none)
    else
      (c1, killEffs ++ [Effect.spawn "rtl_fm"], some PyError.spawnError)
  else
    (c, killEffs, some PyError.spawnError)

/-- The `AbstractReader` state: the two blacklists loaded from
configuration, the text encoding identifier, and the currently attached
`Connection` (or `none`). -/
structure Reader where
  blacklist_messages : List String
  blacklist_monitorcodes : List String
  encoding : String
  connection : Option Connection
deriving Repr, DecidableEq

/-- `AbstractReader.__init__` given the two configured blacklists (the
JSON-file loading itself is outside the embedded core): encoding defaults
to `"utf-8"`, no connection attached. -/
def Reader.mk' (msgs codes : List String) : Reader :=
  ⟨msgs, codes, "utf-8", none⟩

/-- The modelled byte encoding of the configured text codec: a text line
as its character sequence.  Decoding (below) is its exact inverse. -/
def encodeLine (s : String) : List Char := s.data

/-- `AbstractReader.decode_line`: decode the raw byte line with the
configured encoding, then `rstrip()` it when `strip` is set. -/
def decode_line (raw : List Char) (strip : Bool) : String :=
  let decoded := String.mk raw
  if strip then pyRstrip decoded else decoded

/-- `AbstractReader.create_line` on the default `decode=True` path: decode
the raw byte line (stripping per the `strip` kwarg, default `True`) and
construct a `Line` from it with no field overrides. -/
def create_line (raw : List Char) (strip : Bool) : Except PyError Line :=
  Line.init (decode_line raw strip) noKwargs

/-- `AbstractReader.is_monitorcode_blacklisted` on an already-parsed
`Line`: membership of its monitorcode in the configured blacklist. -/
def is_monitorcode_blacklisted (r : Reader) (l : Line) : Bool :=
  r.blacklist_monitorcodes.contains l.monitorcode

/-- `AbstractReader.is_message_blacklisted` on an already-parsed `Line`:
membership of its message in the configured blacklist. -/
def is_message_blacklisted (r : Reader) (l : Line) : Bool :=
  r.blacklist_messages.contains l.message

/-- `AbstractReader.is_line_blacklisted`: monitorcode check `or` message
check. -/
def is_line_blacklisted (r : Reader) (l : Line) : Bool :=
  is_monitorcode_blacklisted r l || is_message_blacklisted r l

/-- `Reader.detach`: if a connection is present, call its `kill()` and set
the reference to `None`; otherwise do nothing. -/
def Reader.detach (r : Reader) : Reader × List Effect :=
  match r.connection with
  | none => (r, [])
  | some c => ({ r with connection := none }, (Connection.kill c).2)

/-- The user-supplied `act` callback: consumes one raw line, may throw. -/
abbrev Act : Type := List Char → Except PyError Unit

/-- The `for line in self.connection.stdout: self.act(line)` loop: act on
each line in order; re-raise the first stream fault or callback
exception. -/
def runLoop (act : Act) : List StreamItem → Except PyError Unit
  | [] => Except.ok ()
  | item :: rest => do
    let l ← item
    act l
    runLoop act rest

/-- Extract the exception, if any, that a loop run raised. -/
def loopError : Except PyError Unit → Option PyError
  | Except.ok _ => none
  | Except.error e => some e

/-- `AbstractReader.__setup_connection__`: inside a `try` block, store the
connection, open it, and iterate its stdout calling `act`; the `finally`
block calls `detach()` on every exit path, after which any exception
propagates.  (`self.connection` aliases the `connection` argument in
Python, so the stored connection reflects `open`'s mutations.)  Returns
the reader state, the effects performed, and the propagated exception if
any. -/
def setupConnection (env : SpawnEnv) (act : Act) (r : Reader) (c : Connection) :
    Reader × List Effect × Option PyError :=
  let opened := Connection.openRun env false c
  let r2 : Reader := { r with connection := some opened.1 }
  match opened.2.2 with
  | some e =>
    let detached := Reader.detach r2
    (detached.1, opened.2.1 ++ detached.2, some e)
  | none =>
    let res := runLoop act (opened.1.stdout.getD [])
    let detached := Reader.detach r2
    (detached.1, opened.2.1 ++ detached.2, loopError res)

/-- `AbstractReader.attach`: if no connection is set, or the set
connection's stdout is `None`, run `__setup_connection__` on the new
connection; otherwise raise `ConnectionError("Connection is already
active.")` without touching any state. -/
def Reader.attach (env : SpawnEnv) (act : Act) (r : Reader) (c : Connection) :
    Reader × List Effect × Option PyError :=
  match r.connection with
  | none => setupConnection env act r c
  | some c0 =>
    if c0.stdout.isNone then setupConnection env act r c
    else (r, [], some PyError.connectionError)

/-- One client-visible operation on a `Connection`: an `open` call (with
its spawn environment and `kill` kwarg) or a `kill` call. -/
inductive ConnOp
  | openOp (env : SpawnEnv) (killFlag : Bool)
  | killOp

/-- The state reached by performing one `ConnOp` (ignoring effects and any
raised exception — Python leaves the assignments already made in place). -/
def ConnOp.apply (c : Connection) : ConnOp → Connection
  | ConnOp.openOp env k => (Connection.openRun env k c).1
  | ConnOp.killOp => (Connection.kill c).1

/-- The `Connection` state reached from a freshly constructed object by a
sequence of `open` / `kill` calls. -/
def runOps (ops : List ConnOp) : Connection :=
  ops.foldl ConnOp.apply Connection.init

/-- Auxiliary invariant on `Connection` states, strong enough to be
inductive over `ConnOp.apply`: the stream handle is set exactly when the
decode-process handle is, and the decode-process handle is only set once
the capture-process handle is. -/
def ConnInvAux (c : Connection) : Prop :=
  c.stdout.isSome = c.multi_process.isSome ∧
  (c.multi_process.isSome = true → c.rtlfm_process.isSome = true)

/-- Spec-side definition ("the original text minus its trailing
newline"), for comparison with `decode_line`: drop the final character
when it is a newline, otherwise return the text unchanged. -/
def specDropTrailingNewline (s : String) : String :=
  if s.data.getLast? = some '\n' then String.mk s.data.dropLast else s

/-- C1 counterexample: on the spec's own example line, the code's message
field is `"Hello World"` — the `words[6:-1]` slice excludes the final
token `"NNNN"` — so it is not `"Hello World NNNN"` as the claim states. -/
theorem c1_counterexample :
    ¬ ((create_line
        (encodeLine "2024-01-01 12:00:00 X Y Z [A12] Hello World NNNN\n") true).map
          Line.message = Except.ok "Hello World NNNN") := by
  decide

/-- C1 (amended): parsing the raw byte line
`"2024-01-01 12:00:00 X Y Z [A12] Hello World NNNN\n"` (decoded with the
default encoding and trailing-whitespace strip) yields a record with
timestamp `"12:00:00"`, monitor code `"A12"`, and message
`"Hello World"` (the last token is excluded by the `[6:-1]` slice). -/
theorem c1_parse_example :
    create_line (encodeLine "2024-01-01 12:00:00 X Y Z [A12] Hello World NNNN\n") true
      = Except.ok
          { line := "2024-01-01 12:00:00 X Y Z [A12] Hello World NNNN"
            timestamp := "12:00:00"
            monitorcode := "A12"
            message := "Hello World" } := by
  decide

/-- C3: on any line with fewer than 6 whitespace-delimited tokens,
`Line.__init__` with no overrides raises an `IndexError` at the
`words[5]` monitor-code access instead of returning a record. -/
theorem line_init_short_line_index_error (line : String)
    (h : (pySplit line).length < 6) :
    Line.init line noKwargs = Except.error PyError.indexError := by
  have h5 : (pySplit line)[5]? = none := List.getElem?_eq_none (by omega)
  unfold Line.init pyGet
  simp only [h5]
  rfl

/-- Witness for C3 at the concrete 2-token line
`"FLEX|2024-01-01 12:00:00"`. -/
theorem line_init_short_line_index_error_witness :
    (pySplit "FLEX|2024-01-01 12:00:00").length < 6 ∧
      Line.init "FLEX|2024-01-01 12:00:00" noKwargs = Except.error PyError.indexError :=
  ⟨by decide, line_init_short_line_index_error "FLEX|2024-01-01 12:00:00" (by decide)⟩

/-- C10: on any line with fewer than 6 tokens, `Line.__init__` raises an
`IndexError` even when explicit `timestamp`, `monitorcode` and `message`
overrides are all supplied, because Python evaluates the extracted
default values (including the `words[5]` access) before the `kwargs.get`
lookup; overrides never relax the token-count precondition. -/
theorem line_init_overrides_do_not_guard (line ts mc msg : String)
    (h : (pySplit line).length < 6) :
    Line.init line ⟨some ts, some mc, some msg⟩ = Except.error PyError.indexError := by
  have h5 : (pySplit line)[5]? = none := List.getElem?_eq_none (by omega)
  unfold Line.init pyGet
  simp only [h5]
  rfl

/-- Witness for C10 at the concrete 3-token line `"a b c"` with all three
overrides supplied. -/
theorem line_init_overrides_do_not_guard_witness :
    (pySplit "a b c").length < 6 ∧
      Line.init "a b c" ⟨some "12:00:00", some "A12", some "hello"⟩
        = Except.error PyError.indexError :=
  ⟨by decide, line_init_overrides_do_not_guard "a b c" "12:00:00" "A12" "hello" (by decide)⟩

/-- C4: for every reader state (hence every pair of blacklist sets) and
every record, `is_line_blacklisted` returns `true` exactly when the
record's monitorcode is in the monitorcode blacklist or its message is in
the message blacklist; it is a pure function of the reader and the
record, so it has no side effects, and it returns `false` for a record
matching neither set. -/
theorem is_line_blacklisted_iff (r : Reader) (l : Line) :
    is_line_blacklisted r l = true ↔
      l.monitorcode ∈ r.blacklist_monitorcodes ∨ l.message ∈ r.blacklist_messages := by
  simp [is_line_blacklisted, is_monitorcode_blacklisted, is_message_blacklisted]

/-- C5: when the reader's currently attached connection has a non-null
stream handle, `attach` with a second connection raises
`ConnectionError` ("Connection is already active.") and performs no state
change: the reader is returned unchanged (the original connection stays
attached), no effect is performed, and the new connection is never
opened. -/
theorem attach_already_active (env : SpawnEnv) (act : Act) (r : Reader)
    (c0 c : Connection) (h1 : r.connection = some c0) (h2 : c0.stdout.isSome) :
    Reader.attach env act r c = (r, [], some PyError.connectionError) := by
  unfold Reader.attach
  rw [h1]
  have hn : c0.stdout.isNone = false := by
    cases hs : c0.stdout
    · rw [hs] at h2; exact absurd h2 (by simp)
    · simp [hs]
  simp [hn]

/-- Witness for C5: a reader holding a fully opened connection rejects a
fresh connection with `ConnectionError` and is left unchanged. -/
theorem attach_already_active_witness :
    (let c0 : Connection := ⟨some (), some (), some []⟩
     let r : Reader := ⟨[], [], "utf-8", some c0⟩
     r.connection = some c0 ∧ c0.stdout.isSome ∧
       Reader.attach ⟨true, true, []⟩ (fun _ => Except.ok ()) r Connection.init
         = (r, [], some PyError.connectionError)) := by
  refine ⟨rfl, rfl, ?_⟩
  exact attach_already_active _ _ _ _ _ rfl rfl

/-- C8: `detach` is idempotent — a second consecutive `detach` is a no-op
leaving the state of the first; after any `detach` the connection
reference is `none`; when a connection is present `detach` calls its
`kill()` (the `killall` effect) and clears the reference; and with no
connection set `detach` changes nothing and performs no effect. -/
theorem detach_idempotent (r : Reader) :
    Reader.detach (Reader.detach r).1 = ((Reader.detach r).1, []) ∧
    ((Reader.detach r).1).connection = none ∧
    (∀ c, r.connection = some c →
      Reader.detach r = ({ r with connection := none }, [Effect.killall])) ∧
    (r.connection = none → Reader.detach r = (r, [])) := by
  unfold Reader.detach Connection.kill
  cases h : r.connection <;> simp_all

/-- Witness for C8 at a concrete reader holding an opened connection. -/
theorem detach_idempotent_witness :
    (let r : Reader := ⟨[], [], "utf-8", some ⟨some (), some (), some []⟩⟩
     Reader.detach (Reader.detach r).1 = ((Reader.detach r).1, []) ∧
     ((Reader.detach r).1).connection = none ∧
     Reader.detach r = ({ r with connection := none }, [Effect.killall])) := by
  have h := detach_idempotent ⟨[], [], "utf-8", some ⟨some (), some (), some []⟩⟩
  exact ⟨h.1, h.2.1, h.2.2.1 _ rfl⟩

/-- C6: however the read loop exits — normal end of stream after any
number of lines, a stream fault, a spawn failure inside `open`, or an
exception from the user's `act` callback — `__setup_connection__` runs
`detach()` before returning (the `killall` effect of the stored
connection's `kill()` is always performed), the reader's connection
reference is `none` afterwards, and the exception (`open`'s, else the
loop's) still propagates to the caller. -/
theorem setup_connection_always_detaches (env : SpawnEnv) (act : Act)
    (r : Reader) (c : Connection) :
    ((setupConnection env act r c).1).connection = none ∧
    Effect.killall ∈ (setupConnection env act r c).2.1 ∧
    (setupConnection env act r c).2.2 =
      ((Connection.openRun env false c).2.2).orElse
        (fun _ => loopError (runLoop act
          (((Connection.openRun env false c).1).stdout.getD []))) := by
  unfold setupConnection
  cases h : (Connection.openRun env false c).2.2 <;>
    simp [h, Reader.detach, Connection.kill, Option.orElse]

/-- Helper for C9: `ConnOp.apply` preserves `ConnInvAux`. -/
lemma connInvAux_apply (c : Connection) (op : ConnOp) (h : ConnInvAux c) :
    ConnInvAux (ConnOp.apply c op) := by
  cases op with
  | killOp => exact h
  | openOp env k =>
    unfold ConnOp.apply Connection.openRun
    cases hr : env.rtlfmOk <;> cases hm : env.multiOk <;>
      simp_all [ConnInvAux, Connection.kill]

/-- Helper for C9: `ConnInvAux` is preserved along any operation list. -/
lemma connInvAux_foldl (ops : List ConnOp) (c : Connection) (h : ConnInvAux c) :
    ConnInvAux (ops.foldl ConnOp.apply c) := by
  induction ops generalizing c with
  | nil => exact h
  | cons op rest ih => exact ih _ (connInvAux_apply c op h)

/-- C9 counterexample: after a successful `open` followed by an explicit
`kill()`, the byte-stream handle is still non-null — `kill` only runs the
process-wide `killall` command and never clears `self.stdout` — refuting
"the handle becomes null after explicit teardown (kill)". -/
theorem kill_leaves_stdout_counterexample :
    ((Connection.kill
        ((Connection.openRun ⟨true, true, []⟩ false Connection.init).1)).1).stdout
      ≠ none := by
  decide

/-- C9 (amended): in every `Connection` state reachable by `open` / `kill`
calls from a fresh object, the byte-stream handle is non-null exactly
when both child-process handles are set (both spawns succeeded),
regardless of whether teardown has occurred — `kill()` never modifies the
object's state, so the handle does not become null after teardown. -/
theorem connection_stdout_invariant (ops : List ConnOp) :
    ((runOps ops).stdout.isSome
      = ((runOps ops).rtlfm_process.isSome && (runOps ops).multi_process.isSome)) ∧
    ∀ c : Connection, (Connection.kill c).1 = c := by
  have h := connInvAux_foldl ops Connection.init (by simp [ConnInvAux, Connection.init])
  refine ⟨?_, fun c => rfl⟩
  obtain ⟨h1, h2⟩ := h
  unfold runOps
  cases hm : ((ops.foldl ConnOp.apply Connection.init)).multi_process.isSome <;>
    simp_all

/-- C7 counterexample: for the text line `"a \n"` (a trailing space before
the newline), encode-then-`decode_line` with `strip=True` yields `"a"` —
Python's `rstrip()` removes all trailing whitespace — not the original
text minus its trailing newline, which is `"a "`. -/
theorem decode_roundtrip_counterexample :
    decode_line (encodeLine "a \n") true ≠ specDropTrailingNewline "a \n" := by
  decide

/-- C7 (amended): for every text line whose only trailing whitespace is
the final newline (the body `t` ends in no whitespace), encoding `t ++
"\n"` with the configured encoding and applying `decode_line` with
`strip=true` yields `t`, and with `strip=false` yields `t ++ "\n"`
unchanged (decode is the exact inverse of encode). -/
theorem decode_line_roundtrip (t : String)
    (h : t.data.reverse.dropWhile pyIsSpace = t.data.reverse) :
    decode_line (encodeLine (t ++ "\n")) true = t ∧
    decode_line (encodeLine (t ++ "\n")) false = t ++ "\n" := by
  refine ⟨?_, rfl⟩
  show pyRstrip (String.mk (t ++ "\n").data) = t
  have hdata : (t ++ "\n").data = t.data ++ ['\n'] := String.data_append t "\n"
  unfold pyRstrip
  rw [show String.mk (t ++ "\n").data = t ++ "\n" from rfl]
  rw [hdata]
  simp only [List.reverse_append, List.reverse_cons, List.reverse_nil, List.nil_append,
    List.singleton_append, List.dropWhile_cons]
  norm_num [pyIsSpace]
  rw [h, List.reverse_reverse]

/-- Witness for C7 at the concrete line `"abc" ++ "\n"`. -/
theorem decode_line_roundtrip_witness :
    ("abc" : String).data.reverse.dropWhile pyIsSpace = ("abc" : String).data.reverse ∧
      (decode_line (encodeLine ("abc" ++ "\n")) true = "abc" ∧
       decode_line (encodeLine ("abc" ++ "\n")) false = "abc" ++ "\n") :=
  ⟨by decide, decode_line_roundtrip "abc" (by decide)⟩

/-- Helper for C2: slicing `words[1:2]` of a list with at least two
elements is the singleton holding element 1. -/
lemma pySlice_one_two (w : List String) (h : 2 ≤ w.length) :
    pySlice w 1 2 = [w.getD 1 ""] := by
  match w, h with
  | a :: b :: rest, _ => simp [pySlice, List.getD]

/-- C2: on any line with at least 7 whitespace-delimited tokens and no
field overrides, `Line.__init__` succeeds with timestamp equal to token 1,
monitorcode equal to token 5 with its surrounding `[` / `]` characters
stripped, and message the space-join of tokens 6 up to but excluding the
last token. -/
theorem line_init_well_formed (line : String) (h : 7 ≤ (pySplit line).length) :
    Line.init line noKwargs = Except.ok
      { line := line
        timestamp := (pySplit line).getD 1 ""
        monitorcode := pyStripBrackets ((pySplit line).getD 5 "")
        message := String.intercalate " "
          (((pySplit line).take ((pySplit line).length - 1)).drop 6) } := by
  have h5 : (pySplit line)[5]? = some ((pySplit line).getD 5 "") := by
    rw [List.getElem?_eq_getElem (by omega), List.getD_eq_getElem _ _ (by omega)]
  have hts : String.intercalate " " (pySlice (pySplit line) 1 2)
      = (pySplit line).getD 1 "" := by
    rw [pySlice_one_two _ (by omega)]
    simp [String.intercalate, String.intercalate.go]
  have hmsg : pySlice (pySplit line) 6 (-1)
      = ((pySplit line).take ((pySplit line).length - 1)).drop 6 := by
    simp only [pySlice]
    norm_num
  unfold Line.init pyGet
  simp only [h5]
  simp [noKwargs, hts, hmsg]

/-- Witness for C2 at the concrete 9-token example line. -/
theorem line_init_well_formed_witness :
    7 ≤ (pySplit "2024-01-01 12:00:00 X Y Z [A12] Hello World NNNN").length ∧
      Line.init "2024-01-01 12:00:00 X Y Z [A12] Hello World NNNN" noKwargs
        = Except.ok
            { line := "2024-01-01 12:00:00 X Y Z [A12] Hello World NNNN"
              timestamp :=
                (pySplit "2024-01-01 12:00:00 X Y Z [A12] Hello World NNNN").getD 1 ""
              monitorcode := pyStripBrackets
                ((pySplit "2024-01-01 12:00:00 X Y Z [A12] Hello World NNNN").getD 5 "")
              message := String.intercalate " "
                (((pySplit "2024-01-01 12:00:00 X Y Z [A12] Hello World NNNN").take
                  ((pySplit "2024-01-01 12:00:00 X Y Z [A12] Hello World NNNN").length
                    - 1)).drop 6) } :=
  ⟨by decide,
    line_init_well_formed "2024-01-01 12:00:00 X Y Z [A12] Hello World NNNN" (by decide)⟩

end P2000
